import Mathlib

/-!
Shallow embedding of the interpreter-agent evaluation framework
(`src/interpreter_agent_eval`): the language-verification gate
(`utils/language_verification.py`), the conversation orchestration and
metrics (`evaluator.py`, class `EvaluationFramework`), and the judge
pipeline (`evaluate_with_judge`).  Machine floats of the source are
modelled as rationals (the literals 0.7/0.9 appear as `mkRat 7 10` /
`mkRat 9 10`); external collaborators (the GlotLID classifier, the LLM
backends, the pydantic JSON validator, wall-clock readings) are explicit
functional parameters.  Python string primitives (`strip`, `replace`,
`split`, slicing) are re-implemented structurally over character lists so
that every definition evaluates inside the kernel.
-/

namespace InterpEval

/-- Python `str.strip()` on a character list: drop leading and trailing
whitespace. -/
def pyStripList (cs : List Char) : List Char :=
  ((cs.dropWhile Char.isWhitespace).reverse.dropWhile Char.isWhitespace).reverse

/-- Python `str.strip()`. -/
def pyStrip (s : String) : String := String.mk (pyStripList s.data)

/-- Python `str.split(sep)` for a one-character separator (the source only
splits on `"_"` and `"\n"`). -/
def splitOnChar (sep : Char) : List Char → List (List Char)
  | [] => [[]]
  | c :: rest =>
    let r := splitOnChar sep rest
    if c = sep then [] :: r
    else
      match r with
      | [] => [[c]]
      | h :: t => (c :: h) :: t

/-- Left-to-right non-overlapping replacement of `pat` by `repl`, with fuel
(`fuel ≥ length` of the scanned list makes it total); semantics of Python
`str.replace` for a non-empty pattern. -/
def replaceListAux (pat repl : List Char) : Nat → List Char → List Char
  | 0, cs => cs
  | _ + 1, [] => []
  | fuel + 1, c :: rest =>
    if pat.isPrefixOf (c :: rest) && !pat.isEmpty then
      repl ++ replaceListAux pat repl fuel ((c :: rest).drop pat.length)
    else c :: replaceListAux pat repl fuel rest

/-- Python `str.replace(pat, repl)`. -/
def pyReplace (s pat repl : String) : String :=
  String.mk (replaceListAux pat.data repl.data s.data.length s.data)

/-- Result record of `verify_language_with_glotlid`
(`utils/language_verification.py`, dataclass `LanguageVerificationResult`). -/
structure LanguageVerificationResult where
  is_correct : Bool
  detected_language : String
  detected_script : String
  confidence : ℚ
  expected_language : String
  message : String
deriving DecidableEq

/-- Outcome of one call to the classifier's `predict`: either an exception
(`perror`, carrying the exception text) or the label/confidence arrays of the
fasttext API, as in `(('__label__eng_Latn',), array([0.99]))`. -/
inductive PredictOutcome where
  | perror (msg : String)
  | presult (labels : List String) (confs : List ℚ)
deriving DecidableEq

/-- The GlotLID fasttext model, consumed purely through `predict`
(spec §6 classifier contract). -/
structure GlotlidModel where
  predict : String → PredictOutcome

/-- Two-decimal rendering of a rational, standing in for the Python format
specifier applied to confidence values inside human-readable messages. -/
def fmt2 (q : ℚ) : String :=
  let n : Int := (q * 100 + mkRat 1 2).floor
  let m := n.natAbs
  (if n < 0 then "-" else "") ++ toString (m / 100) ++ "." ++
    (if m % 100 < 10 then "0" else "") ++ toString (m % 100)

/-- Line 49 of `language_verification.py`:
`clean_text = text.replace("\n", " ").strip()`. -/
def cleanedText (text : String) : String := pyStrip (pyReplace text "\n" " ")

/-- Lines 82-88 of `language_verification.py`: the detected ISO code parsed
from a label of the form `__label__{iso}_{script}`. -/
def parsedLanguage (label : String) : String :=
  let stripped := pyReplace label "__label__" ""
  let parts := (splitOnChar '_' stripped.data).map String.mk
  if 2 ≤ parts.length then parts.headI else stripped

/-- Lines 82-88 of `language_verification.py`: the detected script parsed
from a label of the form `__label__{iso}_{script}`. -/
def parsedScript (label : String) : String :=
  let parts := (splitOnChar '_' (pyReplace label "__label__" "").data).map String.mk
  if 2 ≤ parts.length then parts.getD 1 "" else "Unknown"

/-- Lines 90-100 of `language_verification.py`: the pass policy — exact
language match at the configured confidence, with the documented Arabic
macro-language relaxation (any `Arab`-script detection at confidence 0.7).
The source mutates a local `is_correct`; here the base test is unrolled into
each branch. -/
def glotlidDecision (expected_iso_code : String) (min_confidence : ℚ)
    (detected_iso detected_script : String) (confidence : ℚ) : Bool :=
  if (expected_iso_code == "arb" || expected_iso_code == "ara")
      && !(detected_iso == expected_iso_code && decide (min_confidence ≤ confidence)) then
    if detected_script == "Arab" && decide (mkRat 7 10 ≤ confidence) then true
    else detected_iso == expected_iso_code && decide (min_confidence ≤ confidence)
  else detected_iso == expected_iso_code && decide (min_confidence ≤ confidence)

/-- `verify_language_with_glotlid` (`utils/language_verification.py`,
lines 19-127).  The absent model is `none`; a classifier exception is the
`perror` branch of `predict`; reading a confidence from an empty confidence
array raises an IndexError inside the same `try`, hence lands in the same
handler. -/
def verify_language_with_glotlid (model : Option GlotlidModel) (text : String)
    (expected_iso_code : String) (min_confidence : ℚ) (context_name : String) :
    LanguageVerificationResult :=
  match model with
  | none =>
    { is_correct := true
      detected_language := "unknown"
      detected_script := "unknown"
      confidence := 0
      expected_language := expected_iso_code
      message := context_name ++ ": Model not loaded, skipping verification" }
  | some m =>
    let clean_text := cleanedText text
    if clean_text.data.isEmpty then
      { is_correct := false
        detected_language := "empty"
        detected_script := "empty"
        confidence := 0
        expected_language := expected_iso_code
        message := context_name ++ ": Empty text" }
    else
      match m.predict clean_text with
      | .perror e =>
        { is_correct := true
          detected_language := "error"
          detected_script := "error"
          confidence := 0
          expected_language := expected_iso_code
          message := context_name ++ ": Verification error: " ++ e }
      | .presult labels confs =>
        match labels with
        | [] =>
          { is_correct := false
            detected_language := "unknown"
            detected_script := "unknown"
            confidence := 0
            expected_language := expected_iso_code
            message := context_name ++ ": No prediction returned" }
        | label :: _ =>
          match confs with
          | [] =>
            { is_correct := true
              detected_language := "error"
              detected_script := "error"
              confidence := 0
              expected_language := expected_iso_code
              message := context_name ++ ": Verification error: list index out of range" }
          | confidence :: _ =>
            let detected_iso := parsedLanguage label
            let detected_script := parsedScript label
            let is_correct :=
              glotlidDecision expected_iso_code min_confidence detected_iso detected_script
                confidence
            let message :=
              if !is_correct then
                if detected_iso != expected_iso_code then
                  context_name ++ ": Detected as " ++ detected_iso ++ "_" ++ detected_script ++
                    " (confidence: " ++ fmt2 confidence ++ "), expected " ++ expected_iso_code
                else
                  context_name ++ ": Correct language " ++ detected_iso ++
                    " but low confidence (" ++ fmt2 confidence ++ " < " ++ fmt2 min_confidence ++ ")"
              else
                context_name ++ ": Verified as " ++ detected_iso ++ "_" ++ detected_script ++
                  " (confidence: " ++ fmt2 confidence ++ ")"
            { is_correct := is_correct
              detected_language := detected_iso
              detected_script := detected_script
              confidence := confidence
              expected_language := expected_iso_code
              message := message }

lemma glotlidDecision_iff (e : String) (m : ℚ) (d s : String) (c : ℚ) :
    glotlidDecision e m d s c = true ↔
      ((d = e ∧ m ≤ c) ∨ ((e = "arb" ∨ e = "ara") ∧ s = "Arab" ∧ mkRat 7 10 ≤ c)) := by
  unfold glotlidDecision
  cases hb : (d == e && decide (m ≤ c)) with
  | true =>
    have hb' : d = e ∧ m ≤ c := by simpa using hb
    simp [hb']
  | false =>
    have hb' : ¬ (d = e ∧ m ≤ c) := by
      rintro ⟨h1, h2⟩
      simp [h1, h2] at hb
    simp only [Bool.not_false, Bool.and_true]
    cases ha : (e == "arb" || e == "ara") with
    | false =>
      have ha' : e ≠ "arb" ∧ e ≠ "ara" := by
        simpa [Bool.or_eq_false_iff] using ha
      simp [hb', ha'.1, ha'.2]
    | true =>
      have ha' : e = "arb" ∨ e = "ara" := by simpa using ha
      cases hr : (s == "Arab" && decide (mkRat 7 10 ≤ c)) with
      | true =>
        have hr' : s = "Arab" ∧ mkRat 7 10 ≤ c := by simpa using hr
        simp [ha', hr']
      | false =>
        have hr' : ¬ (s = "Arab" ∧ mkRat 7 10 ≤ c) := by
          rintro ⟨h1, h2⟩
          simp [h1, h2] at hr
        simp [hb', hr']

/-- Claim C4: for a supplied classifier and a text that is non-empty after
whitespace normalization, when the classifier returns a top label and a
confidence, `verify_language_with_glotlid` accepts exactly when the parsed
language equals the expected ISO code at confidence at least
`min_confidence`, or the expected code is one of the designated Arabic
macro-language codes, the detected script is `Arab`, and the confidence is
at least 0.7. -/
theorem glotlid_accept_iff (m : GlotlidModel) (text expected ctx label : String)
    (min_confidence conf : ℚ) (labels : List String) (confs : List ℚ)
    (hne : (cleanedText text).data.isEmpty = false)
    (hp : m.predict (cleanedText text) = .presult (label :: labels) (conf :: confs)) :
    (verify_language_with_glotlid (some m) text expected min_confidence ctx).is_correct = true ↔
      ((parsedLanguage label = expected ∧ min_confidence ≤ conf) ∨
       ((expected = "arb" ∨ expected = "ara") ∧ parsedScript label = "Arab" ∧
         mkRat 7 10 ≤ conf)) := by
  unfold verify_language_with_glotlid
  simp only [hne, Bool.false_eq_true, if_false, hp]
  exact glotlidDecision_iff expected min_confidence
    (parsedLanguage label) (parsedScript label) conf

/-- Classifier stub detecting English (`eng_Latn`) at confidence 0.95. -/
def engModel : GlotlidModel := ⟨fun _ => .presult ["__label__eng_Latn"] [mkRat 95 100]⟩

/-- Classifier stub detecting Spanish (`spa_Latn`) at confidence 0.99. -/
def spaModel : GlotlidModel := ⟨fun _ => .presult ["__label__spa_Latn"] [mkRat 99 100]⟩

/-- Classifier stub that raises. -/
def errModel : GlotlidModel := ⟨fun _ => .perror "boom"⟩

/-- Classifier stub that returns an empty prediction. -/
def emptyPredModel : GlotlidModel := ⟨fun _ => .presult [] []⟩

theorem glotlid_accept_iff_witness :
    (verify_language_with_glotlid (some engModel) "Hello there" "eng"
        (mkRat 9 10) "Text").is_correct = true := by
  have h := glotlid_accept_iff engModel "Hello there" "eng" "Text" "__label__eng_Latn"
    (mkRat 9 10) (mkRat 95 100) [] [] (by decide) rfl
  exact h.mpr (Or.inl ⟨by decide, by decide⟩)

/-- Claim C7: a classifier exception never propagates: the result fails open
with `is_correct = true`, confidence 0, and a message carrying the
underlying error text. -/
theorem glotlid_exception_fails_open (m : GlotlidModel) (text expected ctx e : String)
    (min_confidence : ℚ)
    (hne : (cleanedText text).data.isEmpty = false)
    (hp : m.predict (cleanedText text) = .perror e) :
    (verify_language_with_glotlid (some m) text expected min_confidence ctx).is_correct = true ∧
    (verify_language_with_glotlid (some m) text expected min_confidence ctx).confidence = 0 ∧
    (verify_language_with_glotlid (some m) text expected min_confidence ctx).message =
      ctx ++ ": Verification error: " ++ e := by
  unfold verify_language_with_glotlid
  simp [hne, hp]

theorem glotlid_exception_fails_open_witness :
    (verify_language_with_glotlid (some errModel) "bonjour" "eng"
        (mkRat 9 10) "Text").is_correct = true ∧
    (verify_language_with_glotlid (some errModel) "bonjour" "eng"
        (mkRat 9 10) "Text").message = "Text: Verification error: boom" := by
  have h := glotlid_exception_fails_open errModel "bonjour" "eng" "Text" "boom" (mkRat 9 10)
    (by decide) rfl
  exact ⟨h.1, h.2.2⟩

/-- Claim C9: with no model the check fails open (`is_correct = true`,
confidence 0, message noting the skip); with a model but text empty after
newline/whitespace normalization it fails closed with the `empty`
sentinels. -/
theorem glotlid_no_model_and_empty_text :
    (∀ text expected ctx : String, ∀ min_confidence : ℚ,
      (verify_language_with_glotlid none text expected min_confidence ctx).is_correct = true ∧
      (verify_language_with_glotlid none text expected min_confidence ctx).confidence = 0 ∧
      (verify_language_with_glotlid none text expected min_confidence ctx).message =
        ctx ++ ": Model not loaded, skipping verification") ∧
    (∀ (m : GlotlidModel), ∀ text expected ctx : String, ∀ min_confidence : ℚ,
      (cleanedText text).data.isEmpty = true →
      (verify_language_with_glotlid (some m) text expected min_confidence ctx).is_correct
          = false ∧
      (verify_language_with_glotlid (some m) text expected min_confidence ctx).detected_language
          = "empty" ∧
      (verify_language_with_glotlid (some m) text expected min_confidence ctx).detected_script
          = "empty") := by
  constructor
  · intro text expected ctx min_confidence
    exact ⟨rfl, rfl, rfl⟩
  · intro m text expected ctx min_confidence hempty
    unfold verify_language_with_glotlid
    simp [hempty]

theorem glotlid_no_model_and_empty_text_witness :
    (verify_language_with_glotlid none "hola" "spa" (mkRat 9 10) "Text").is_correct = true ∧
    (verify_language_with_glotlid (some engModel) "  \n " "eng"
        (mkRat 9 10) "Text").is_correct = false := by
  refine ⟨(glotlid_no_model_and_empty_text.1 "hola" "spa" "Text" (mkRat 9 10)).1, ?_⟩
  exact (glotlid_no_model_and_empty_text.2 engModel "  \n " "eng" "Text" (mkRat 9 10)
    (by decide)).1

/-- Claim C10: a successful classifier call that carries no labels fails
closed (`is_correct = false`, `unknown` sentinels, confidence 0, a
no-prediction message) — the opposite polarity of a classifier exception,
which fails open. -/
theorem glotlid_empty_prediction_fails_closed (m : GlotlidModel)
    (text expected ctx : String) (min_confidence : ℚ) (confs : List ℚ)
    (hne : (cleanedText text).data.isEmpty = false)
    (hp : m.predict (cleanedText text) = .presult [] confs) :
    (verify_language_with_glotlid (some m) text expected min_confidence ctx).is_correct
        = false ∧
    (verify_language_with_glotlid (some m) text expected min_confidence ctx).detected_language
        = "unknown" ∧
    (verify_language_with_glotlid (some m) text expected min_confidence ctx).detected_script
        = "unknown" ∧
    (verify_language_with_glotlid (some m) text expected min_confidence ctx).confidence = 0 ∧
    (verify_language_with_glotlid (some m) text expected min_confidence ctx).message =
        ctx ++ ": No prediction returned" ∧
    (∀ (m2 : GlotlidModel) (e : String),
      m2.predict (cleanedText text) = .perror e →
      (verify_language_with_glotlid (some m2) text expected min_confidence ctx).is_correct
        = true) := by
  refine ⟨?_, ?_, ?_, ?_, ?_, ?_⟩
  · unfold verify_language_with_glotlid; simp [hne, hp]
  · unfold verify_language_with_glotlid; simp [hne, hp]
  · unfold verify_language_with_glotlid; simp [hne, hp]
  · unfold verify_language_with_glotlid; simp [hne, hp]
  · unfold verify_language_with_glotlid; simp [hne, hp]
  · intro m2 e hp2
    unfold verify_language_with_glotlid
    simp [hne, hp2]

theorem glotlid_empty_prediction_fails_closed_witness :
    (verify_language_with_glotlid (some emptyPredModel) "hi" "eng"
        (mkRat 9 10) "Text").is_correct = false ∧
    (verify_language_with_glotlid (some errModel) "hi" "eng"
        (mkRat 9 10) "Text").is_correct = true := by
  have h := glotlid_empty_prediction_fails_closed emptyPredModel "hi" "eng" "Text"
    (mkRat 9 10) [] (by decide) rfl
  exact ⟨h.1, h.2.2.2.2.2 errModel "boom" rfl⟩

/-- Pydantic model `LanguageCheckResult` (`models/evaluation.py`). -/
structure LanguageCheckResult where
  is_correct : Bool
  detected_language : String
  detected_script : String
  confidence : ℚ
  expected_language : String
  message : String
deriving DecidableEq

/-- Pydantic model `JudgeCriterionResult` (`models/evaluation.py`); `id` is the
1-based criterion number. -/
structure JudgeCriterionResult where
  id : Nat
  criteria : String
  met : Bool
  reasoning : String
deriving DecidableEq

/-- Pydantic model `JudgeEvaluation` (`models/evaluation.py`). -/
structure JudgeEvaluation where
  results : List JudgeCriterionResult
  translation_language_check : Option LanguageCheckResult
  response_language_check : Option LanguageCheckResult
  language_check_passed : Bool
deriving DecidableEq

/-- Field-by-field conversion performed at `evaluator.py` lines 204-211 and
222-229. -/
def lcrOfVerification (v : LanguageVerificationResult) : LanguageCheckResult :=
  { is_correct := v.is_correct
    detected_language := v.detected_language
    detected_script := v.detected_script
    confidence := v.confidence
    expected_language := v.expected_language
    message := v.message }

/-- One entry of a party's conversation history: a role tag, the content, and
arbitrary string metadata. -/
structure HistoryMessage where
  role : String
  content : String
  metadata : List (String × String)
deriving DecidableEq

/-- Modelled from the spec: `user.py` (class `User`) is imported by the
package but absent from the source tree; the fields follow spec §3 "Party"
(identifier, language code, generative flag, generation delegate, ordered
message history).  The delegate is modelled as a total text-to-text
function; backend errors are out of scope here. -/
structure UserState where
  name : String
  language : String
  is_llm : Bool
  generate : String → String
  conversation_history : List HistoryMessage

/-- Modelled from the spec (§4.1 `sendMessage`): a non-generative party
returns the text unchanged, a generative one returns its delegate's output;
either way exactly one history entry tagged with the party's own
(assistant) role is appended. -/
def UserState.sendMessage (u : UserState) (text : String) : String × UserState :=
  let produced := if u.is_llm then u.generate text else text
  (produced,
   { u with conversation_history :=
       u.conversation_history ++ [{ role := "assistant", content := produced, metadata := [] }] })

/-- Modelled from the spec (§4.1 `receiveMessage`): appends one received
(user-role) entry carrying the given metadata; no other party is touched. -/
def UserState.receiveMessage (u : UserState) (text : String)
    (metadata : List (String × String)) : UserState :=
  { u with conversation_history :=
      u.conversation_history ++ [{ role := "user", content := text, metadata := metadata }] }

/-- One record of `InterpreterAgent.translation_history`
(`interpreter.py`, lines 112-121); `from`/`to` of the source dict are
`from_lang`/`to_lang` here. -/
structure TranslationRecord where
  original : String
  translation : String
  from_lang : String
  to_lang : String
  context : Option String
deriving DecidableEq

/-- State of `InterpreterAgent` (`interpreter.py`).  `generate` is
`llm_provider.generate (prompt, system_prompt)`; `lang_display` stands for
the iso639 `Lang(code)` display-name resolution including its graceful
degradation to the raw code. -/
structure InterpreterState where
  generate : String → String → String
  lang_display : String → String
  source_language : String
  target_language : String
  translation_brief : String
  conversation_context : String
  name : String
  translation_history : List TranslationRecord

/-- Python truthiness for an optional string (`x or default`, `if x:`):
`None` and the empty string are falsy. -/
def truthyStr (o : Option String) : Option String :=
  match o with
  | some s => if s.data.isEmpty then none else some s
  | none => none

/-- `TRANSLATION_TASK.format(...)` (`prompts/templates.py`). -/
def TRANSLATION_TASK_format (from_language to_language context message : String) : String :=
  "Task: Translate the following message from " ++ from_language ++ " to " ++
    to_language ++ ".\n" ++ context ++ "\nMessage to translate: " ++ message ++
    "\n\nTranslation (" ++ to_language ++ "):"

/-- `InterpreterAgent._build_translation_prompt` (`interpreter.py`,
lines 125-163). -/
def InterpreterState.build_translation_prompt (it : InterpreterState)
    (message from_language to_language : String) (context : Option String) : String :=
  let from_lang_name := it.lang_display from_language
  let to_lang_name := it.lang_display to_language
  let context_str :=
    match truthyStr context with
    | some c => "Context: " ++ c
    | none => ""
  TRANSLATION_TASK_format from_lang_name to_lang_name context_str message

/-- `InterpreterAgent.translate` (`interpreter.py`, lines 86-123). -/
def InterpreterState.translate (it : InterpreterState) (message : String)
    (from_language to_language : Option String) (context : Option String) :
    String × InterpreterState :=
  let from_lang := (truthyStr from_language).getD it.source_language
  let to_lang := (truthyStr to_language).getD it.target_language
  let prompt := it.build_translation_prompt message from_lang to_lang context
  let translation := it.generate prompt it.translation_brief
  (translation,
   { it with translation_history := it.translation_history ++
       [{ original := message, translation := translation, from_lang := from_lang,
          to_lang := to_lang, context := context }] })

/-- The dictionary returned by `facilitate_conversation`
(`interpreter.py`, lines 198-203). -/
structure FacilitateResult where
  original : String
  original_language : String
  translation : String
  translation_language : String
deriving DecidableEq

/-- `InterpreterAgent.facilitate_conversation` (`interpreter.py`,
lines 173-203). -/
def InterpreterState.facilitate_conversation (it : InterpreterState)
    (message sender_language receiver_language : String) (context : Option String) :
    FacilitateResult × InterpreterState :=
  let (translation, it') := it.translate message (some sender_language)
    (some receiver_language) context
  ({ original := message
     original_language := sender_language
     translation := translation
     translation_language := receiver_language }, it')

/-- One entry of `EvaluationFramework.conversation_log`
(`evaluator.py`, lines 74-100). -/
structure TurnRecord where
  turn : Nat
  timestamp : String
  from_user : String
  to_user : String
  original_message : String
  original_language : String
  translated_message : String
  translated_language : String
  translation_time : ℚ
deriving DecidableEq

/-- Return value of `evaluate_translation_quality`: either the
`{"error": ...}` dictionary or the metrics dictionary
(`evaluator.py`, lines 115-140). -/
inductive QualityMetrics where
  | noData (error : String)
  | metrics (total_turns : Nat) (average_translation_time : ℚ)
      (languages : List (String × String))
deriving DecidableEq

/-- The `average_translation_time` entry, when present. -/
def QualityMetrics.averageTime : QualityMetrics → Option ℚ
  | .noData _ => none
  | .metrics _ avg _ => some avg

/-- The `total_turns` entry, when present. -/
def QualityMetrics.totalTurns : QualityMetrics → Option Nat
  | .noData _ => none
  | .metrics n _ _ => some n

/-- State of `EvaluationFramework` (`evaluator.py`, lines 23-49). -/
structure Framework where
  user1 : UserState
  user2 : UserState
  interpreter : InterpreterState
  conversation_context : String
  name : String
  conversation_log : List TurnRecord
  metrics : Option QualityMetrics
  judge_evaluation : Option JudgeEvaluation

/-- One iteration of the `run_conversation` loop body (`evaluator.py`,
lines 72-111).  `clock` delivers the `datetime.now().isoformat()` reading
and `dur` the measured `time.time()` difference for this iteration — both
are external observations.  `turn` is the 0-based position of the message
within the current call; `curIsUser1` says whether the current sender is
`user1`. -/
def stepTurn (fw : Framework) (clock : Nat → String) (dur : Nat → ℚ)
    (message : String) (turn : Nat) (curIsUser1 : Bool) : Framework :=
  let cur := if curIsUser1 then fw.user1 else fw.user2
  let other := if curIsUser1 then fw.user2 else fw.user1
  let sent := (cur.sendMessage message).1
  let cur' := (cur.sendMessage message).2
  let fac := fw.interpreter.facilitate_conversation sent cur.language other.language
    (some ("Turn " ++ toString (turn + 1) ++ " of conversation"))
  let td : TurnRecord :=
    { turn := turn + 1
      timestamp := clock turn
      from_user := cur.name
      to_user := other.name
      original_message := sent
      original_language := cur.language
      translated_message := fac.1.translation
      translated_language := fac.1.translation_language
      translation_time := dur turn }
  let other' := other.receiveMessage fac.1.translation [("from", "interpreter")]
  { fw with
    user1 := if curIsUser1 then cur' else other'
    user2 := if curIsUser1 then other' else cur'
    interpreter := fac.2
    conversation_log := fw.conversation_log ++ [td] }

/-- The `for turn, message in enumerate(messages)` loop of
`run_conversation` (`evaluator.py`, lines 72-111). -/
def runConversationAux (clock : Nat → String) (dur : Nat → ℚ) :
    Framework → List String → Nat → Bool → Framework
  | fw, [], _, _ => fw
  | fw, message :: rest, turn, b =>
    runConversationAux clock dur (stepTurn fw clock dur message turn b) rest (turn + 1) (!b)

/-- `EvaluationFramework.run_conversation` (`evaluator.py`, lines 51-113):
runs the loop starting from the party selected by `from_user` and returns
(updated state, `self.conversation_log`). -/
def run_conversation (fw : Framework) (clock : Nat → String) (dur : Nat → ℚ)
    (messages : List String) (from_user : Nat) : Framework × List TurnRecord :=
  let fw' := runConversationAux clock dur fw messages 0 (from_user == 1)
  (fw', fw'.conversation_log)

/-- `EvaluationFramework.evaluate_translation_quality` (`evaluator.py`,
lines 115-140).  The languages dictionary keeps the second binding when the
two language keys collide, as a Python dict literal does. -/
def evaluate_translation_quality (fw : Framework) : QualityMetrics × Framework :=
  if fw.conversation_log.isEmpty then
    (.noData "No conversation data to evaluate", fw)
  else
    let total := fw.conversation_log.length
    let tsum := fw.conversation_log.foldl (fun acc t => acc + t.translation_time) 0
    let langs : List (String × String) :=
      if fw.user1.language == fw.user2.language then
        [(fw.user2.language, fw.user2.name)]
      else
        [(fw.user1.language, fw.user1.name), (fw.user2.language, fw.user2.name)]
    let m := QualityMetrics.metrics total (tsum / (total : ℚ)) langs
    (m, { fw with metrics := some m })

/-- Alternation pattern of sender names: `altName a b i` is `a` for even `i`
and `b` for odd `i`. -/
def altName (a b : String) : Nat → String
  | 0 => a
  | n + 1 => altName b a n

lemma stepTurn_user1_name (fw : Framework) (clock : Nat → String) (dur : Nat → ℚ)
    (m : String) (t : Nat) (b : Bool) :
    (stepTurn fw clock dur m t b).user1.name = fw.user1.name := by
  cases b <;> rfl

lemma stepTurn_user2_name (fw : Framework) (clock : Nat → String) (dur : Nat → ℚ)
    (m : String) (t : Nat) (b : Bool) :
    (stepTurn fw clock dur m t b).user2.name = fw.user2.name := by
  cases b <;> rfl

lemma stepTurn_log (fw : Framework) (clock : Nat → String) (dur : Nat → ℚ)
    (m : String) (t : Nat) (b : Bool) :
    ∃ td : TurnRecord,
      (stepTurn fw clock dur m t b).conversation_log = fw.conversation_log ++ [td] ∧
      td.turn = t + 1 ∧
      td.from_user = (if b then fw.user1.name else fw.user2.name) ∧
      td.to_user = (if b then fw.user2.name else fw.user1.name) := by
  refine ⟨_, rfl, rfl, ?_, ?_⟩ <;> cases b <;> rfl

lemma runConversationAux_user_names (msgs : List String) :
    ∀ (fw : Framework) (clock : Nat → String) (dur : Nat → ℚ) (t : Nat) (b : Bool),
      (runConversationAux clock dur fw msgs t b).user1.name = fw.user1.name ∧
      (runConversationAux clock dur fw msgs t b).user2.name = fw.user2.name := by
  induction msgs with
  | nil => intro fw clock dur t b; exact ⟨rfl, rfl⟩
  | cons m rest ih =>
    intro fw clock dur t b
    simp only [runConversationAux]
    exact ⟨((ih _ clock dur _ _).1).trans (stepTurn_user1_name fw clock dur m t b),
           ((ih _ clock dur _ _).2).trans (stepTurn_user2_name fw clock dur m t b)⟩

lemma runConversationAux_length (msgs : List String) :
    ∀ (fw : Framework) (clock : Nat → String) (dur : Nat → ℚ) (t : Nat) (b : Bool),
      (runConversationAux clock dur fw msgs t b).conversation_log.length =
        fw.conversation_log.length + msgs.length := by
  induction msgs with
  | nil => intro fw clock dur t b; rfl
  | cons m rest ih =>
    intro fw clock dur t b
    simp only [runConversationAux]
    rw [ih _ clock dur _ _]
    obtain ⟨td, hlog, -, -, -⟩ := stepTurn_log fw clock dur m t b
    rw [hlog]
    simp only [List.length_append, List.length_cons, List.length_nil]
    omega

lemma runConversationAux_preserve (msgs : List String) :
    ∀ (fw : Framework) (clock : Nat → String) (dur : Nat → ℚ) (t : Nat) (b : Bool)
      (n : Nat), n < fw.conversation_log.length →
      (runConversationAux clock dur fw msgs t b).conversation_log[n]? =
        fw.conversation_log[n]? := by
  induction msgs with
  | nil => intro fw clock dur t b n _; rfl
  | cons m rest ih =>
    intro fw clock dur t b n hn
    simp only [runConversationAux]
    obtain ⟨td, hlog, -, -, -⟩ := stepTurn_log fw clock dur m t b
    have hn' : n < (stepTurn fw clock dur m t b).conversation_log.length := by
      rw [hlog]
      simp only [List.length_append, List.length_singleton]
      omega
    rw [ih _ clock dur _ _ n hn', hlog, List.getElem?_append, if_pos hn]

lemma runConversationAux_append (msgs : List String) :
    ∀ (fw : Framework) (clock : Nat → String) (dur : Nat → ℚ) (t : Nat) (b : Bool),
      ∃ newRecs : List TurnRecord,
        (runConversationAux clock dur fw msgs t b).conversation_log =
          fw.conversation_log ++ newRecs ∧
        newRecs.length = msgs.length := by
  induction msgs with
  | nil => intro fw clock dur t b; exact ⟨[], by simp [runConversationAux], rfl⟩
  | cons m rest ih =>
    intro fw clock dur t b
    simp only [runConversationAux]
    obtain ⟨td, hlog, -, -, -⟩ := stepTurn_log fw clock dur m t b
    obtain ⟨ns, h1, h2⟩ := ih (stepTurn fw clock dur m t b) clock dur (t + 1) (!b)
    exact ⟨td :: ns, by rw [h1, hlog]; simp, by simp [h2]⟩

lemma runConversationAux_new (msgs : List String) :
    ∀ (fw : Framework) (clock : Nat → String) (dur : Nat → ℚ) (t : Nat) (b : Bool)
      (i : Nat), i < msgs.length →
      ((runConversationAux clock dur fw msgs t b).conversation_log[fw.conversation_log.length + i]?).map
          TurnRecord.turn = some (t + 1 + i) ∧
      ((runConversationAux clock dur fw msgs t b).conversation_log[fw.conversation_log.length + i]?).map
          TurnRecord.from_user =
        some (altName (if b then fw.user1.name else fw.user2.name)
          (if b then fw.user2.name else fw.user1.name) i) ∧
      ((runConversationAux clock dur fw msgs t b).conversation_log[fw.conversation_log.length + i]?).map
          TurnRecord.to_user =
        some (altName (if b then fw.user2.name else fw.user1.name)
          (if b then fw.user1.name else fw.user2.name) i) := by
  induction msgs with
  | nil => intro fw clock dur t b i hi; exact absurd hi (by simp)
  | cons msg rest ih =>
    intro fw clock dur t b i hi
    obtain ⟨td, hlog, hturn, hfrom, hto⟩ := stepTurn_log fw clock dur msg t b
    have hlen2 : (stepTurn fw clock dur msg t b).conversation_log.length =
        fw.conversation_log.length + 1 := by
      rw [hlog]; simp
    simp only [runConversationAux]
    match i with
    | 0 =>
      have hlt : fw.conversation_log.length + 0 <
          (stepTurn fw clock dur msg t b).conversation_log.length := by omega
      rw [runConversationAux_preserve rest _ clock dur _ _ _ hlt, hlog]
      have hget : (fw.conversation_log ++ [td])[fw.conversation_log.length + 0]? = some td := by
        rw [Nat.add_zero, List.getElem?_append]
        simp
      rw [hget]
      exact ⟨by simp [hturn], by simp [hfrom, altName], by simp [hto, altName]⟩
    | Nat.succ j =>
      have hj : j < rest.length := by simpa using hi
      have h := ih (stepTurn fw clock dur msg t b) clock dur (t + 1) (!b) j hj
      rw [hlen2, stepTurn_user1_name, stepTurn_user2_name] at h
      have hidx : fw.conversation_log.length + (j + 1) =
          fw.conversation_log.length + 1 + j := by omega
      rw [hidx]
      have ht : t + 1 + 1 + j = t + 1 + (j + 1) := by omega
      rw [ht] at h
      cases b with
      | true =>
        simp only [Bool.not_true, if_false, if_true] at h ⊢
        exact ⟨h.1, h.2.1, h.2.2⟩
      | false =>
        simp only [Bool.not_false, if_false, if_true] at h ⊢
        exact ⟨h.1, h.2.1, h.2.2⟩

/-- Claim C2 (amended): each `run_conversation` call appends exactly N
records; within the call the recorded turn indices restart at 1 and
increase by 1 with the message position (they do not continue from the
prior log length), and the sender alternates starting from the party
selected by `from_user` (any value other than 1 selects user2, as in the
source's conditional). -/
theorem run_conversation_turn_structure (fw : Framework) (clock : Nat → String)
    (dur : Nat → ℚ) (messages : List String) (from_user : Nat) :
    ((run_conversation fw clock dur messages from_user).1).conversation_log.length =
        fw.conversation_log.length + messages.length ∧
    (∀ i : Nat, i < messages.length →
      (((run_conversation fw clock dur messages from_user).1).conversation_log[fw.conversation_log.length + i]?).map
          TurnRecord.turn = some (i + 1) ∧
      (((run_conversation fw clock dur messages from_user).1).conversation_log[fw.conversation_log.length + i]?).map
          TurnRecord.from_user =
        some (altName (if from_user == 1 then fw.user1.name else fw.user2.name)
          (if from_user == 1 then fw.user2.name else fw.user1.name) i) ∧
      (((run_conversation fw clock dur messages from_user).1).conversation_log[fw.conversation_log.length + i]?).map
          TurnRecord.to_user =
        some (altName (if from_user == 1 then fw.user2.name else fw.user1.name)
          (if from_user == 1 then fw.user1.name else fw.user2.name) i)) := by
  constructor
  · exact runConversationAux_length messages fw clock dur 0 (from_user == 1)
  · intro i hi
    have h := runConversationAux_new messages fw clock dur 0 (from_user == 1) i hi
    have hz : 0 + 1 + i = i + 1 := by omega
    rw [hz] at h
    exact h

/-- Manual (non-generative) user `Alice` speaking `eng`. -/
def exUser1 : UserState :=
  { name := "Alice", language := "eng", is_llm := false, generate := fun _ => "",
    conversation_history := [] }

/-- Manual (non-generative) user `Bob` speaking `spa`. -/
def exUser2 : UserState :=
  { name := "Bob", language := "spa", is_llm := false, generate := fun _ => "",
    conversation_history := [] }

/-- Stub interpreter whose backend always returns a fixed string. -/
def exInterpreter : InterpreterState :=
  { generate := fun _ _ => "stub translation", lang_display := fun c => c,
    source_language := "eng", target_language := "spa", translation_brief := "Translate",
    conversation_context := "ctx", name := "Interpreter", translation_history := [] }

/-- A fresh evaluation session over the two stub users. -/
def exFramework : Framework :=
  { user1 := exUser1, user2 := exUser2, interpreter := exInterpreter,
    conversation_context := "A general conversation between two users.", name := "eval",
    conversation_log := [], metrics := none, judge_evaluation := none }

/-- Fixed wall-clock stub. -/
def exClock : Nat → String := fun _ => "2024-01-01T00:00:00"

/-- Fixed translation-latency stub. -/
def exDur : Nat → ℚ := fun _ => 1

theorem run_conversation_turn_structure_witness :
    (((run_conversation exFramework exClock exDur ["Hi", "Hola"] 1).1).conversation_log[0]?).map
        TurnRecord.turn = some 1 ∧
    (((run_conversation exFramework exClock exDur ["Hi", "Hola"] 1).1).conversation_log[0]?).map
        TurnRecord.from_user = some "Alice" ∧
    (((run_conversation exFramework exClock exDur ["Hi", "Hola"] 1).1).conversation_log[1]?).map
        TurnRecord.from_user = some "Bob" := by
  have h0 := (run_conversation_turn_structure exFramework exClock exDur ["Hi", "Hola"] 1).2
    0 (by decide)
  have h1 := (run_conversation_turn_structure exFramework exClock exDur ["Hi", "Hola"] 1).2
    1 (by decide)
  refine ⟨?_, ?_, ?_⟩
  · simpa [exFramework] using h0.1
  · simpa [exFramework, exUser1, exUser2, altName] using h0.2.1
  · simpa [exFramework, exUser1, exUser2, altName] using h1.2.1

/-- Claim C2 counterexample: after a prior `run_conversation` call has left
one record in the log, the next call's new record carries turn index 1, not
prior-length + 1 = 2 — the enumerate-based indices restart on every call
instead of continuing from the prior log length. -/
theorem run_conversation_turn_index_counterexample :
    ((run_conversation exFramework exClock exDur ["first"] 1).1).conversation_log.length = 1 ∧
    (((run_conversation ((run_conversation exFramework exClock exDur ["first"] 1).1)
        exClock exDur ["second"] 1).1).conversation_log[1]?).map TurnRecord.turn = some 1 ∧
    (1 : Nat) ≠ 1 + 1 := by
  refine ⟨by decide, by decide, by decide⟩

/-- Claim C8: `run_conversation` only appends — the prior log is a prefix of
the new log, exactly N records are added for N messages, and the returned
list is the full cumulative log of the instance, not just this call's
records. -/
theorem run_conversation_append_only (fw : Framework) (clock : Nat → String)
    (dur : Nat → ℚ) (messages : List String) (from_user : Nat) :
    ∃ newRecs : List TurnRecord,
      newRecs.length = messages.length ∧
      (run_conversation fw clock dur messages from_user).1.conversation_log =
        fw.conversation_log ++ newRecs ∧
      (run_conversation fw clock dur messages from_user).2 =
        fw.conversation_log ++ newRecs := by
  obtain ⟨ns, h1, h2⟩ := runConversationAux_append messages fw clock dur 0 (from_user == 1)
  exact ⟨ns, h2, h1, h1⟩

lemma foldl_translation_time (l : List TurnRecord) (a : ℚ) :
    l.foldl (fun acc t => acc + t.translation_time) a =
      a + (l.map TurnRecord.translation_time).sum := by
  induction l generalizing a with
  | nil => simp
  | cons t rest ih => simp [List.foldl_cons, ih, add_assoc]

/-- Claim C3: on an empty log `evaluate_translation_quality` returns the
distinguishable no-data result instead of raising; on a non-empty log the
reported `average_translation_time` is the arithmetic mean of all
`translation_time` values of the entire current log; and the computation is
a pure recomputation from the log — evaluating again after an evaluation
returns the same metrics. -/
theorem translation_quality_metrics (fw : Framework) :
    (fw.conversation_log = [] →
      (evaluate_translation_quality fw).1 =
        QualityMetrics.noData "No conversation data to evaluate") ∧
    (fw.conversation_log ≠ [] →
      ((evaluate_translation_quality fw).1).totalTurns = some fw.conversation_log.length ∧
      ((evaluate_translation_quality fw).1).averageTime =
        some ((fw.conversation_log.map TurnRecord.translation_time).sum /
          (fw.conversation_log.length : ℚ))) ∧
    (evaluate_translation_quality (evaluate_translation_quality fw).2).1 =
      (evaluate_translation_quality fw).1 := by
  by_cases h : fw.conversation_log = []
  · have he : fw.conversation_log.isEmpty = true := by simp [h]
    refine ⟨fun _ => ?_, fun hne => absurd h hne, ?_⟩
    · simp [evaluate_translation_quality, he]
    · simp [evaluate_translation_quality, he]
  · have he : fw.conversation_log.isEmpty = false := by simpa [List.isEmpty_iff] using h
    refine ⟨fun heq => absurd heq h, fun _ => ?_, ?_⟩
    · constructor
      · simp [evaluate_translation_quality, he, QualityMetrics.totalTurns]
      · simp [evaluate_translation_quality, he, QualityMetrics.averageTime,
          foldl_translation_time]
    · simp [evaluate_translation_quality, he]

/-- A log record carrying only a turn number and a latency (other fields
fixed), for concrete metric computations. -/
def timeTurn (n : Nat) (q : ℚ) : TurnRecord :=
  { turn := n, timestamp := "t", from_user := "Alice", to_user := "Bob",
    original_message := "m", original_language := "eng", translated_message := "tr",
    translated_language := "spa", translation_time := q }

/-- Session whose three logged turns took 0.1, 0.2 and 0.3 seconds. -/
def fwTimes : Framework :=
  { exFramework with conversation_log :=
      [timeTurn 1 (mkRat 1 10), timeTurn 2 (mkRat 2 10), timeTurn 3 (mkRat 3 10)] }

theorem translation_quality_metrics_witness :
    fwTimes.conversation_log ≠ [] ∧
    ((evaluate_translation_quality fwTimes).1).totalTurns = some 3 ∧
    ((evaluate_translation_quality fwTimes).1).averageTime = some (mkRat 1 5) := by
  have h := (translation_quality_metrics fwTimes).2.1 (by decide)
  refine ⟨by decide, ?_, ?_⟩
  · rw [h.1]; decide
  · rw [h.2]
    norm_num [fwTimes, exFramework, timeTurn, Rat.mkRat_eq_div]

/-- Python `str.lstrip(chars)`: drop leading characters drawn from the given
set. -/
def pyLstrip (chars : String) (s : String) : String :=
  String.mk (s.data.dropWhile (fun c => chars.data.contains c))

/-- Lines 240-244 of `evaluator.py`: split the checklist on newlines, strip
each line, keep the non-empty ones whose first character is a digit. -/
def criteriaLines (verification_prompt : String) : List String :=
  (((splitOnChar '\n' verification_prompt.data).map
      (fun l => String.mk (pyStripList l))).filter
    (fun l => !l.data.isEmpty && l.data.headI.isDigit))

/-- Lines 247-256 of `evaluator.py`: the synthesized all-failed criterion
results, enumerated from the given 1-based start index. -/
def failedCriteriaResults : Nat → List String → List JudgeCriterionResult
  | _, [] => []
  | i, line :: rest =>
    { id := i
      criteria := pyLstrip "0123456789. " line
      met := false
      reasoning := "Translation was in the wrong language - automatic failure" } ::
    failedCriteriaResults (i + 1) rest

/-- Lines 179-185 of `evaluator.py`: the content of the most recent
assistant-tagged entry of the target's history, else the sentinel. -/
def latestAssistantContent (history : List HistoryMessage) : String :=
  match history.reverse.find? (fun m => m.role == "assistant") with
  | some m => m.content
  | none => "No response recorded"

/-- Lines 176-185 of `evaluator.py`: an explicitly supplied (truthy)
response text wins, else the target's history is scanned. -/
def resolveTargetResponse (response_text : Option String) (target_user : UserState) : String :=
  match truthyStr response_text with
  | some t => t
  | none => latestAssistantContent target_user.conversation_history

/-- Python list indexing with negative-index support; `none` models an
IndexError. -/
def pyIndex {α : Type} (l : List α) (i : Int) : Option α :=
  if 0 ≤ i then l[i.toNat]?
  else if i.natAbs ≤ l.length then l[l.length - i.natAbs]? else none

/-- Line 172 of `evaluator.py`: the turn's receiver. -/
def judgeTargetUser (fw : Framework) (turn : TurnRecord) : UserState :=
  if turn.to_user == fw.user1.name then fw.user1 else fw.user2

/-- Lines 267-283 of `evaluator.py`: the human-readable summary of the
language-check outcomes embedded in the judge prompt. -/
def langVerificationInfo (tlc rlc : Option LanguageCheckResult) : String :=
  match tlc, rlc with
  | none, none => "Language verification not performed (model not provided)."
  | _, _ =>
    String.intercalate "\n"
      ((match tlc with
        | some c =>
          ["- Translation Language Check: " ++
            (if c.is_correct then "✓ PASSED" else "✗ FAILED") ++ "\n  " ++ c.message]
        | none => []) ++
       (match rlc with
        | some c =>
          ["- Target Response Language Check: " ++
            (if c.is_correct then "✓ PASSED" else "✗ FAILED") ++ "\n  " ++ c.message]
        | none => []))

/-- `JUDGE_EVALUATION_PROMPT.format(...)` (`prompts/templates.py`). -/
def JUDGE_EVALUATION_PROMPT_format (conversation_context source_text translated_text
    target_response verification_prompt language_verification_info : String) : String :=
  "You are an expert linguistic and cultural evaluator.\n" ++
  "Your task is to evaluate the quality of a translation given the conversation context, source text, the translation, and the target recipient's response.\n\n" ++
  "Conversation Context: " ++ conversation_context ++ "\n" ++
  "Source Text: \"" ++ source_text ++ "\"\n" ++
  "Translated Text: \"" ++ translated_text ++ "\"\n" ++
  "Target Recipient Response: \"" ++ target_response ++ "\"\n\n" ++
  "Language Verification Results:\n" ++ language_verification_info ++ "\n\n" ++
  "Verification Checklist:\n" ++ verification_prompt ++ "\n\n" ++
  "For each item in the verification checklist, determine if the translation successfully meets the criteria (Yes/No).\n" ++
  "Also provide a brief reasoning for your decision.\n\n" ++
  "IMPORTANT: If the language verification indicates that the target recipient's response is in the wrong language, \n" ++
  "this typically means the communication has failed. Any criteria that depend on the appropriateness or correctness \n" ++
  "of the target's response should likely be marked as \"not met\" since responding in the wrong language is a critical failure.\n\n" ++
  "Evaluate each criterion carefully based on:\n" ++
  "1. Translation Accuracy: Did the interpreter correctly handle the linguistic/cultural challenge?\n" ++
  "2. Pragmatic Outcome: Did the communication succeed based on User B's response (considering language issues)?\n\n" ++
  "Format your output as a JSON object with a \"results\" array only (do not include completion_rate).\n" ++
  "Each result should have: id (number), criteria (string), met (boolean), and reasoning (string)."

/-- Lines 305-309 / 326-330 of `evaluator.py`: strip surrounding whitespace
and the Markdown code-fence delimiters. -/
def cleanJudgeResponse (response : String) : String :=
  let c := (pyStrip response).data
  let c := if ("```json".data).isPrefixOf c then c.drop 7 else c
  let c := if ("```".data).isSuffixOf c then c.take (c.length - 3) else c
  String.mk c

/-- The judge backend: `generate prompt structured` is
`judge_llm_provider.generate` with (`structured = true`) or without the
structured-output keywords; an `error` value is a raised exception. -/
structure JudgeBackend where
  generate : String → Bool → Except String String

/-- Observable outcome of one `evaluate_with_judge` call: the returned
evaluation or the raised error, the number of judge-backend `generate`
invocations, the number of classifier verifications performed, and the
value of `self.judge_evaluation` after the call. -/
structure JudgeOutcome where
  result : Except String JudgeEvaluation
  judgeCalls : Nat
  verifierCalls : Nat
  stored : Option JudgeEvaluation

/-- Lines 295-344 of `evaluator.py`: call the judge with structured output,
parse (code fences stripped), on any failure retry exactly once without
structured output, and on a second failure raise the consolidated
RuntimeError.  `parse` models `JudgeEvaluation.model_validate_json`
(pydantic, external); `prior` is the pre-call `self.judge_evaluation`. -/
def judgePhase (judge : JudgeBackend) (parse : String → Except String JudgeEvaluation)
    (prompt : String) (tlc rlc : Option LanguageCheckResult) (lcp : Bool)
    (prior : Option JudgeEvaluation) (verifierCalls : Nat) : JudgeOutcome :=
  let attach := fun (ev : JudgeEvaluation) =>
    { ev with translation_language_check := tlc, response_language_check := rlc,
              language_check_passed := lcp }
  let fallback := fun (e1 : String) =>
    match judge.generate prompt false with
    | .ok response =>
      match parse (cleanJudgeResponse response) with
      | .ok ev =>
        { result := .ok (attach ev), judgeCalls := 2, verifierCalls := verifierCalls,
          stored := some (attach ev) }
      | .error e2 =>
        { result := .error ("Judge evaluation failed: " ++ e1 ++
            ". Fallback also failed: " ++ e2),
          judgeCalls := 2, verifierCalls := verifierCalls, stored := prior }
    | .error e2 =>
      { result := .error ("Judge evaluation failed: " ++ e1 ++
          ". Fallback also failed: " ++ e2),
        judgeCalls := 2, verifierCalls := verifierCalls, stored := prior }
  match judge.generate prompt true with
  | .ok response =>
    match parse (cleanJudgeResponse response) with
    | .ok ev =>
      { result := .ok (attach ev), judgeCalls := 1, verifierCalls := verifierCalls,
        stored := some (attach ev) }
    | .error e1 => fallback e1
  | .error e1 => fallback e1

/-- The translation-side language check of `evaluate_with_judge`
(`evaluator.py`, lines 197-203): the logged translated text against the
receiving party's language. -/
def translationCheck (fw : Framework) (gm : GlotlidModel) (min_confidence : ℚ)
    (turn : TurnRecord) : LanguageVerificationResult :=
  verify_language_with_glotlid (some gm) turn.translated_message
    (judgeTargetUser fw turn).language min_confidence "Translation"

/-- The response-side language check of `evaluate_with_judge`
(`evaluator.py`, lines 215-221): the resolved target response against the
explicit or default response language. -/
def responseCheck (fw : Framework) (gm : GlotlidModel) (min_confidence : ℚ)
    (turn : TurnRecord) (response_text response_language : Option String) :
    LanguageVerificationResult :=
  verify_language_with_glotlid (some gm)
    (resolveTargetResponse response_text (judgeTargetUser fw turn))
    ((truthyStr response_language).getD (judgeTargetUser fw turn).language)
    min_confidence "Target Response"

/-- Body of `evaluate_with_judge` for a successfully selected turn
(`evaluator.py`, lines 171-344).  The source mutates the locals
`response_lang_check` / `language_check_passed`; here the two assignments
are unrolled into the branch on whether a response text exists. -/
def evaluateTurnWithJudge (fw : Framework) (judge : JudgeBackend)
    (parse : String → Except String JudgeEvaluation)
    (verification_prompt : String) (turn : TurnRecord)
    (glotlid_model : Option GlotlidModel) (min_confidence : ℚ)
    (response_text response_language : Option String) : JudgeOutcome :=
  let target_response := resolveTargetResponse response_text (judgeTargetUser fw turn)
  match glotlid_model with
  | none =>
    judgePhase judge parse
      (JUDGE_EVALUATION_PROMPT_format fw.conversation_context turn.original_message
        turn.translated_message target_response verification_prompt
        (langVerificationInfo none none))
      none none true fw.judge_evaluation 0
  | some gm =>
    let tv := translationCheck fw gm min_confidence turn
    let tlc := some (lcrOfVerification tv)
    let shortOut := fun (rlc : Option LanguageCheckResult) (vcalls : Nat) =>
      let ev : JudgeEvaluation :=
        { results := failedCriteriaResults 1 (criteriaLines verification_prompt)
          translation_language_check := tlc
          response_language_check := rlc
          language_check_passed := false }
      ({ result := .ok ev, judgeCalls := 0, verifierCalls := vcalls,
         stored := some ev } : JudgeOutcome)
    let judgeOut := fun (rlc : Option LanguageCheckResult) (lcp : Bool) (vcalls : Nat) =>
      judgePhase judge parse
        (JUDGE_EVALUATION_PROMPT_format fw.conversation_context turn.original_message
          turn.translated_message target_response verification_prompt
          (langVerificationInfo tlc rlc))
        tlc rlc lcp fw.judge_evaluation vcalls
    if target_response ≠ "No response recorded" then
      let rv := responseCheck fw gm min_confidence turn response_text response_language
      let rlc := some (lcrOfVerification rv)
      if !tv.is_correct then shortOut rlc 2
      else judgeOut rlc rv.is_correct 2
    else
      if !tv.is_correct then shortOut none 1
      else judgeOut none true 1

/-- `EvaluationFramework.evaluate_with_judge` (`evaluator.py`,
lines 142-344): empty-log guard (ValueError), turn selection with Python
negative indexing (IndexError), then the per-turn body. -/
def evaluate_with_judge (fw : Framework) (judge : JudgeBackend)
    (parse : String → Except String JudgeEvaluation)
    (verification_prompt : String) (turn_index : Int)
    (glotlid_model : Option GlotlidModel) (min_confidence : ℚ)
    (response_text response_language : Option String) : JudgeOutcome :=
  if fw.conversation_log.isEmpty then
    { result := .error "No conversation data to evaluate", judgeCalls := 0,
      verifierCalls := 0, stored := fw.judge_evaluation }
  else
    match pyIndex fw.conversation_log turn_index with
    | none =>
      { result := .error "list index out of range", judgeCalls := 0,
        verifierCalls := 0, stored := fw.judge_evaluation }
    | some turn =>
      evaluateTurnWithJudge fw judge parse verification_prompt turn glotlid_model
        min_confidence response_text response_language

lemma pyIndex_ne_nil {α : Type} {l : List α} {i : Int} {x : α}
    (h : pyIndex l i = some x) : l.isEmpty = false := by
  cases l with
  | nil => simp [pyIndex] at h
  | cons a as => rfl

lemma evaluate_with_judge_turn (fw : Framework) (judge : JudgeBackend)
    (parse : String → Except String JudgeEvaluation) (vp : String) (idx : Int)
    (gmOpt : Option GlotlidModel) (minc : ℚ) (rt rl : Option String) (turn : TurnRecord)
    (hturn : pyIndex fw.conversation_log idx = some turn) :
    evaluate_with_judge fw judge parse vp idx gmOpt minc rt rl =
      evaluateTurnWithJudge fw judge parse vp turn gmOpt minc rt rl := by
  unfold evaluate_with_judge
  rw [pyIndex_ne_nil hturn, hturn]
  rfl

lemma failedCriteriaResults_mem (i : Nat) (ls : List String) :
    ∀ r ∈ failedCriteriaResults i ls, r.met = false ∧
      r.reasoning = "Translation was in the wrong language - automatic failure" := by
  induction ls generalizing i with
  | nil => intro r hr; simp [failedCriteriaResults] at hr
  | cons l rest ih =>
    intro r hr
    simp only [failedCriteriaResults, List.mem_cons] at hr
    rcases hr with rfl | hr
    · exact ⟨rfl, rfl⟩
    · exact ih (i + 1) r hr

lemma judgePhase_verifierCalls (judge : JudgeBackend)
    (parse : String → Except String JudgeEvaluation) (prompt : String)
    (tlc rlc : Option LanguageCheckResult) (lcp : Bool) (prior : Option JudgeEvaluation)
    (vc : Nat) : (judgePhase judge parse prompt tlc rlc lcp prior vc).verifierCalls = vc := by
  cases hg : judge.generate prompt true with
  | ok r =>
    cases hp : parse (cleanJudgeResponse r) with
    | ok ev => simp [judgePhase, hg, hp]
    | error e1 =>
      cases hg2 : judge.generate prompt false with
      | ok r2 => cases hp2 : parse (cleanJudgeResponse r2) with
        | ok ev2 => simp [judgePhase, hg, hp, hg2, hp2]
        | error e2 => simp [judgePhase, hg, hp, hg2, hp2]
      | error e2 => simp [judgePhase, hg, hp, hg2]
  | error e1 =>
    cases hg2 : judge.generate prompt false with
    | ok r2 => cases hp2 : parse (cleanJudgeResponse r2) with
      | ok ev2 => simp [judgePhase, hg, hg2, hp2]
      | error e2 => simp [judgePhase, hg, hg2, hp2]
    | error e2 => simp [judgePhase, hg, hg2]

lemma judgePhase_ok_fields (judge : JudgeBackend)
    (parse : String → Except String JudgeEvaluation) (prompt : String)
    (tlc rlc : Option LanguageCheckResult) (lcp : Bool) (prior : Option JudgeEvaluation)
    (vc : Nat) (ev : JudgeEvaluation)
    (h : (judgePhase judge parse prompt tlc rlc lcp prior vc).result = .ok ev) :
    ev.translation_language_check = tlc ∧ ev.response_language_check = rlc ∧
      ev.language_check_passed = lcp := by
  cases hg : judge.generate prompt true with
  | ok r =>
    cases hp : parse (cleanJudgeResponse r) with
    | ok ev0 =>
      simp only [judgePhase, hg, hp, Except.ok.injEq] at h
      subst h
      exact ⟨rfl, rfl, rfl⟩
    | error e1 =>
      cases hg2 : judge.generate prompt false with
      | ok r2 =>
        cases hp2 : parse (cleanJudgeResponse r2) with
        | ok ev2 =>
          simp only [judgePhase, hg, hp, hg2, hp2, Except.ok.injEq] at h
          subst h
          exact ⟨rfl, rfl, rfl⟩
        | error e2 =>
          simp only [judgePhase, hg, hp, hg2, hp2] at h
          exact Except.noConfusion h
      | error e2 =>
        simp only [judgePhase, hg, hp, hg2] at h
        exact Except.noConfusion h
  | error e1 =>
    cases hg2 : judge.generate prompt false with
    | ok r2 =>
      cases hp2 : parse (cleanJudgeResponse r2) with
      | ok ev2 =>
        simp only [judgePhase, hg, hg2, hp2, Except.ok.injEq] at h
        subst h
        exact ⟨rfl, rfl, rfl⟩
      | error e2 =>
        simp only [judgePhase, hg, hg2, hp2] at h
        exact Except.noConfusion h
    | error e2 =>
      simp only [judgePhase, hg, hg2] at h
      exact Except.noConfusion h

lemma evaluateTurnWithJudge_nomodel (fw : Framework) (judge : JudgeBackend)
    (parse : String → Except String JudgeEvaluation) (vp : String) (turn : TurnRecord)
    (minc : ℚ) (rt rl : Option String) :
    evaluateTurnWithJudge fw judge parse vp turn none minc rt rl =
      judgePhase judge parse
        (JUDGE_EVALUATION_PROMPT_format fw.conversation_context turn.original_message
          turn.translated_message (resolveTargetResponse rt (judgeTargetUser fw turn)) vp
          (langVerificationInfo none none))
        none none true fw.judge_evaluation 0 := rfl

lemma evaluateTurnWithJudge_short_resp (fw : Framework) (judge : JudgeBackend)
    (parse : String → Except String JudgeEvaluation) (vp : String) (turn : TurnRecord)
    (gm : GlotlidModel) (minc : ℚ) (rt rl : Option String)
    (hresp : resolveTargetResponse rt (judgeTargetUser fw turn) ≠ "No response recorded")
    (hfail : (translationCheck fw gm minc turn).is_correct = false) :
    evaluateTurnWithJudge fw judge parse vp turn (some gm) minc rt rl =
      { result := .ok
          { results := failedCriteriaResults 1 (criteriaLines vp)
            translation_language_check :=
              some (lcrOfVerification (translationCheck fw gm minc turn))
            response_language_check :=
              some (lcrOfVerification (responseCheck fw gm minc turn rt rl))
            language_check_passed := false }
        judgeCalls := 0
        verifierCalls := 2
        stored := some
          { results := failedCriteriaResults 1 (criteriaLines vp)
            translation_language_check :=
              some (lcrOfVerification (translationCheck fw gm minc turn))
            response_language_check :=
              some (lcrOfVerification (responseCheck fw gm minc turn rt rl))
            language_check_passed := false } } := by
  simp only [evaluateTurnWithJudge]
  rw [if_pos hresp, hfail]
  rfl

lemma evaluateTurnWithJudge_short_noresp (fw : Framework) (judge : JudgeBackend)
    (parse : String → Except String JudgeEvaluation) (vp : String) (turn : TurnRecord)
    (gm : GlotlidModel) (minc : ℚ) (rt rl : Option String)
    (hresp : resolveTargetResponse rt (judgeTargetUser fw turn) = "No response recorded")
    (hfail : (translationCheck fw gm minc turn).is_correct = false) :
    evaluateTurnWithJudge fw judge parse vp turn (some gm) minc rt rl =
      { result := .ok
          { results := failedCriteriaResults 1 (criteriaLines vp)
            translation_language_check :=
              some (lcrOfVerification (translationCheck fw gm minc turn))
            response_language_check := none
            language_check_passed := false }
        judgeCalls := 0
        verifierCalls := 1
        stored := some
          { results := failedCriteriaResults 1 (criteriaLines vp)
            translation_language_check :=
              some (lcrOfVerification (translationCheck fw gm minc turn))
            response_language_check := none
            language_check_passed := false } } := by
  simp only [evaluateTurnWithJudge]
  rw [if_neg (not_not_intro hresp), hfail]
  rfl

lemma evaluateTurnWithJudge_pass_resp (fw : Framework) (judge : JudgeBackend)
    (parse : String → Except String JudgeEvaluation) (vp : String) (turn : TurnRecord)
    (gm : GlotlidModel) (minc : ℚ) (rt rl : Option String)
    (hresp : resolveTargetResponse rt (judgeTargetUser fw turn) ≠ "No response recorded")
    (hpass : (translationCheck fw gm minc turn).is_correct = true) :
    evaluateTurnWithJudge fw judge parse vp turn (some gm) minc rt rl =
      judgePhase judge parse
        (JUDGE_EVALUATION_PROMPT_format fw.conversation_context turn.original_message
          turn.translated_message (resolveTargetResponse rt (judgeTargetUser fw turn)) vp
          (langVerificationInfo (some (lcrOfVerification (translationCheck fw gm minc turn)))
            (some (lcrOfVerification (responseCheck fw gm minc turn rt rl)))))
        (some (lcrOfVerification (translationCheck fw gm minc turn)))
        (some (lcrOfVerification (responseCheck fw gm minc turn rt rl)))
        (responseCheck fw gm minc turn rt rl).is_correct
        fw.judge_evaluation 2 := by
  simp only [evaluateTurnWithJudge]
  rw [if_pos hresp, hpass]
  rfl

lemma evaluateTurnWithJudge_pass_noresp (fw : Framework) (judge : JudgeBackend)
    (parse : String → Except String JudgeEvaluation) (vp : String) (turn : TurnRecord)
    (gm : GlotlidModel) (minc : ℚ) (rt rl : Option String)
    (hresp : resolveTargetResponse rt (judgeTargetUser fw turn) = "No response recorded")
    (hpass : (translationCheck fw gm minc turn).is_correct = true) :
    evaluateTurnWithJudge fw judge parse vp turn (some gm) minc rt rl =
      judgePhase judge parse
        (JUDGE_EVALUATION_PROMPT_format fw.conversation_context turn.original_message
          turn.translated_message (resolveTargetResponse rt (judgeTargetUser fw turn)) vp
          (langVerificationInfo (some (lcrOfVerification (translationCheck fw gm minc turn)))
            none))
        (some (lcrOfVerification (translationCheck fw gm minc turn))) none true
        fw.judge_evaluation 1 := by
  simp only [evaluateTurnWithJudge]
  rw [if_neg (not_not_intro hresp), hpass]
  rfl

/-- Claim C1: when a verifier model is supplied and the translation-side
language check fails, `evaluate_with_judge` short-circuits: the returned
`JudgeEvaluation` has every criterion `met = false` with the fixed
wrong-language reasoning and `language_check_passed = false`, and the judge
backend's `generate` is never invoked (zero judge calls). -/
theorem judge_short_circuit_on_failed_translation (fw : Framework) (judge : JudgeBackend)
    (parse : String → Except String JudgeEvaluation) (verification_prompt : String)
    (turn_index : Int) (gm : GlotlidModel) (min_confidence : ℚ)
    (response_text response_language : Option String) (turn : TurnRecord)
    (hturn : pyIndex fw.conversation_log turn_index = some turn)
    (hfail : (translationCheck fw gm min_confidence turn).is_correct = false) :
    (evaluate_with_judge fw judge parse verification_prompt turn_index (some gm)
        min_confidence response_text response_language).judgeCalls = 0 ∧
    ∃ ev : JudgeEvaluation,
      (evaluate_with_judge fw judge parse verification_prompt turn_index (some gm)
          min_confidence response_text response_language).result = .ok ev ∧
      ev.language_check_passed = false ∧
      ∀ r ∈ ev.results, r.met = false ∧
        r.reasoning = "Translation was in the wrong language - automatic failure" := by
  rw [evaluate_with_judge_turn fw judge parse verification_prompt turn_index (some gm)
    min_confidence response_text response_language turn hturn]
  by_cases hresp : resolveTargetResponse response_text (judgeTargetUser fw turn) =
      "No response recorded"
  · rw [evaluateTurnWithJudge_short_noresp fw judge parse verification_prompt turn gm
      min_confidence response_text response_language hresp hfail]
    exact ⟨rfl, _, rfl, rfl, failedCriteriaResults_mem 1 _⟩
  · rw [evaluateTurnWithJudge_short_resp fw judge parse verification_prompt turn gm
      min_confidence response_text response_language hresp hfail]
    exact ⟨rfl, _, rfl, rfl, failedCriteriaResults_mem 1 _⟩

/-- A logged turn whose translation went to `Alice` (eng). -/
def exTurn : TurnRecord :=
  { turn := 1, timestamp := "t", from_user := "Bob", to_user := "Alice",
    original_message := "hola amigo", original_language := "spa",
    translated_message := "hello friend", translated_language := "eng",
    translation_time := mkRat 1 1 }

/-- Session with one logged turn, ready for judging. -/
def fwJudge : Framework := { exFramework with conversation_log := [exTurn] }

/-- Judge backend that always answers. -/
def exJudgeOk : JudgeBackend := ⟨fun _ _ => .ok "resp"⟩

/-- Validator that rejects everything. -/
def exParseFail : String → Except String JudgeEvaluation := fun _ => .error "bad json"

theorem judge_short_circuit_witness :
    (evaluate_with_judge fwJudge exJudgeOk exParseFail "1. Was it accurate?" (-1)
        (some spaModel) (mkRat 9 10) none none).judgeCalls = 0 := by
  have h := judge_short_circuit_on_failed_translation fwJudge exJudgeOk exParseFail
    "1. Was it accurate?" (-1) spaModel (mkRat 9 10) none none exTurn (by decide) (by decide)
  exact h.1

/-- Claim C5 (amended): when a verifier model is supplied, the response text
(when one exists) is verified unconditionally, before the translation-check
branch — so two classifier calls happen even when the translation check
fails, and the response-check result is attached to the short-circuited
evaluation as well.  `language_check_passed` equals the response
verification's result when the translation check passes and a response
exists, stays `true` when no response exists, and is forced `false`
whenever the translation check fails. -/
theorem judge_response_verification_order (fw : Framework) (judge : JudgeBackend)
    (parse : String → Except String JudgeEvaluation) (vp : String) (idx : Int)
    (gm : GlotlidModel) (minc : ℚ) (rt rl : Option String) (turn : TurnRecord)
    (hturn : pyIndex fw.conversation_log idx = some turn) :
    (resolveTargetResponse rt (judgeTargetUser fw turn) ≠ "No response recorded" →
      (evaluate_with_judge fw judge parse vp idx (some gm) minc rt rl).verifierCalls = 2) ∧
    (resolveTargetResponse rt (judgeTargetUser fw turn) = "No response recorded" →
      (evaluate_with_judge fw judge parse vp idx (some gm) minc rt rl).verifierCalls = 1) ∧
    ((translationCheck fw gm minc turn).is_correct = false →
      ∃ ev : JudgeEvaluation,
        (evaluate_with_judge fw judge parse vp idx (some gm) minc rt rl).result = .ok ev ∧
        ev.language_check_passed = false ∧
        ev.response_language_check =
          (if resolveTargetResponse rt (judgeTargetUser fw turn) = "No response recorded"
           then none
           else some (lcrOfVerification (responseCheck fw gm minc turn rt rl)))) ∧
    ((translationCheck fw gm minc turn).is_correct = true →
      ∀ ev : JudgeEvaluation,
        (evaluate_with_judge fw judge parse vp idx (some gm) minc rt rl).result = .ok ev →
        ev.translation_language_check =
          some (lcrOfVerification (translationCheck fw gm minc turn)) ∧
        ev.response_language_check =
          (if resolveTargetResponse rt (judgeTargetUser fw turn) = "No response recorded"
           then none
           else some (lcrOfVerification (responseCheck fw gm minc turn rt rl))) ∧
        ev.language_check_passed =
          (if resolveTargetResponse rt (judgeTargetUser fw turn) = "No response recorded"
           then true
           else (responseCheck fw gm minc turn rt rl).is_correct)) := by
  rw [evaluate_with_judge_turn fw judge parse vp idx (some gm) minc rt rl turn hturn]
  by_cases hresp : resolveTargetResponse rt (judgeTargetUser fw turn) = "No response recorded"
  · by_cases hpass : (translationCheck fw gm minc turn).is_correct = true
    · rw [evaluateTurnWithJudge_pass_noresp fw judge parse vp turn gm minc rt rl hresp hpass]
      refine ⟨fun h => absurd hresp h, fun _ => judgePhase_verifierCalls _ _ _ _ _ _ _ _,
        fun hfail => absurd hpass (by simp [hfail]), fun _ ev hev => ?_⟩
      have h3 := judgePhase_ok_fields _ _ _ _ _ _ _ _ ev hev
      rw [if_pos hresp, if_pos hresp]
      exact h3
    · have hfail : (translationCheck fw gm minc turn).is_correct = false := by
        revert hpass; cases (translationCheck fw gm minc turn).is_correct <;> simp
      rw [evaluateTurnWithJudge_short_noresp fw judge parse vp turn gm minc rt rl hresp hfail]
      refine ⟨fun h => absurd hresp h, fun _ => rfl, fun _ => ?_, fun hpass' => ?_⟩
      · exact ⟨_, rfl, rfl, by rw [if_pos hresp]⟩
      · rw [hfail] at hpass'
        exact absurd hpass' (by simp)
  · by_cases hpass : (translationCheck fw gm minc turn).is_correct = true
    · rw [evaluateTurnWithJudge_pass_resp fw judge parse vp turn gm minc rt rl hresp hpass]
      refine ⟨fun _ => judgePhase_verifierCalls _ _ _ _ _ _ _ _,
        fun h => absurd h hresp,
        fun hfail => absurd hpass (by simp [hfail]), fun _ ev hev => ?_⟩
      have h3 := judgePhase_ok_fields _ _ _ _ _ _ _ _ ev hev
      rw [if_neg hresp, if_neg hresp]
      exact h3
    · have hfail : (translationCheck fw gm minc turn).is_correct = false := by
        revert hpass; cases (translationCheck fw gm minc turn).is_correct <;> simp
      rw [evaluateTurnWithJudge_short_resp fw judge parse vp turn gm minc rt rl hresp hfail]
      refine ⟨fun _ => rfl, fun h => absurd h hresp, fun _ => ?_, fun hpass' => ?_⟩
      · exact ⟨_, rfl, rfl, by rw [if_neg hresp]⟩
      · rw [hfail] at hpass'
        exact absurd hpass' (by simp)

theorem judge_response_verification_order_witness :
    (evaluate_with_judge fwJudge exJudgeOk exParseFail "1. ok?" (-1) (some spaModel)
        (mkRat 9 10) (some "respuesta") none).verifierCalls = 2 := by
  have h := judge_response_verification_order fwJudge exJudgeOk exParseFail "1. ok?" (-1)
    spaModel (mkRat 9 10) (some "respuesta") none exTurn (by decide)
  exact h.1 (by decide)

/-- Claim C5 counterexample: with a failing translation check and an
explicit response text, the call short-circuits (zero judge calls) yet the
classifier has been invoked twice — the response was verified before the
short-circuit — and the response-side check is attached to the returned
evaluation, contradicting "no response verification is performed before the
short-circuit return". -/
theorem judge_premature_response_check_counterexample :
    (evaluate_with_judge fwJudge exJudgeOk exParseFail "1. ok?" (-1) (some spaModel)
        (mkRat 9 10) (some "si claro") none).judgeCalls = 0 ∧
    (evaluate_with_judge fwJudge exJudgeOk exParseFail "1. ok?" (-1) (some spaModel)
        (mkRat 9 10) (some "si claro") none).verifierCalls = 2 ∧
    ((evaluate_with_judge fwJudge exJudgeOk exParseFail "1. ok?" (-1) (some spaModel)
        (mkRat 9 10) (some "si claro") none).result.toOption.map
      (fun ev => ev.response_language_check.isSome)) = some true := by
  exact ⟨by decide, by decide, by decide⟩

/-- Claim C6: in `evaluate_with_judge` (here with no verifier model, so the
attached language substructures are the trivial `none`/`none`/`true`), when
the first backend response parses, the parsed evaluation with the language
fields attached is returned and stored; when the first parse fails, exactly
one fallback `generate` call is made without structured output (two calls
total) and its response re-parsed; if the fallback parse (or call) also
fails, the call fails with the single consolidated error naming both
causes, and the stored judgment is unchanged. -/
theorem judge_parse_fallback (fw : Framework) (judge : JudgeBackend)
    (parse : String → Except String JudgeEvaluation) (verification_prompt : String)
    (turn_index : Int) (min_confidence : ℚ) (response_text response_language : Option String)
    (turn : TurnRecord) (r1 : String)
    (hturn : pyIndex fw.conversation_log turn_index = some turn)
    (hg1 : ∀ p, judge.generate p true = Except.ok r1) :
    (∀ ev : JudgeEvaluation, parse (cleanJudgeResponse r1) = .ok ev →
      (evaluate_with_judge fw judge parse verification_prompt turn_index none min_confidence
          response_text response_language).judgeCalls = 1 ∧
      (evaluate_with_judge fw judge parse verification_prompt turn_index none min_confidence
          response_text response_language).result =
        .ok { ev with translation_language_check := none, response_language_check := none,
                      language_check_passed := true } ∧
      (evaluate_with_judge fw judge parse verification_prompt turn_index none min_confidence
          response_text response_language).stored =
        some { ev with translation_language_check := none, response_language_check := none,
                       language_check_passed := true }) ∧
    (∀ e1 : String, parse (cleanJudgeResponse r1) = .error e1 →
      (evaluate_with_judge fw judge parse verification_prompt turn_index none min_confidence
          response_text response_language).judgeCalls = 2 ∧
      (∀ r2 : String, (∀ p, judge.generate p false = Except.ok r2) →
        (∀ ev : JudgeEvaluation, parse (cleanJudgeResponse r2) = .ok ev →
          (evaluate_with_judge fw judge parse verification_prompt turn_index none
              min_confidence response_text response_language).result =
            .ok { ev with translation_language_check := none,
                          response_language_check := none, language_check_passed := true } ∧
          (evaluate_with_judge fw judge parse verification_prompt turn_index none
              min_confidence response_text response_language).stored =
            some { ev with translation_language_check := none,
                           response_language_check := none, language_check_passed := true }) ∧
        (∀ e2 : String, parse (cleanJudgeResponse r2) = .error e2 →
          (evaluate_with_judge fw judge parse verification_prompt turn_index none
              min_confidence response_text response_language).result =
            .error ("Judge evaluation failed: " ++ e1 ++ ". Fallback also failed: " ++ e2) ∧
          (evaluate_with_judge fw judge parse verification_prompt turn_index none
              min_confidence response_text response_language).stored =
            fw.judge_evaluation)) ∧
      (∀ e2 : String, (∀ p, judge.generate p false = Except.error e2) →
        (evaluate_with_judge fw judge parse verification_prompt turn_index none
            min_confidence response_text response_language).result =
          .error ("Judge evaluation failed: " ++ e1 ++ ". Fallback also failed: " ++ e2))) := by
  rw [evaluate_with_judge_turn fw judge parse verification_prompt turn_index none
    min_confidence response_text response_language turn hturn,
    evaluateTurnWithJudge_nomodel]
  constructor
  · intro ev hp
    simp [judgePhase, hg1, hp]
  · intro e1 hp1
    refine ⟨?_, ?_, ?_⟩
    · cases hg2 : judge.generate (JUDGE_EVALUATION_PROMPT_format fw.conversation_context
          turn.original_message turn.translated_message
          (resolveTargetResponse response_text (judgeTargetUser fw turn)) verification_prompt
          (langVerificationInfo none none)) false with
      | ok r2 =>
        cases hp2 : parse (cleanJudgeResponse r2) with
        | ok ev2 => simp [judgePhase, hg1, hp1, hg2, hp2]
        | error e2 => simp [judgePhase, hg1, hp1, hg2, hp2]
      | error e2 => simp [judgePhase, hg1, hp1, hg2]
    · intro r2 hg2
      constructor
      · intro ev hp2
        simp [judgePhase, hg1, hp1, hg2, hp2]
      · intro e2 hp2
        simp [judgePhase, hg1, hp1, hg2, hp2]
    · intro e2 hg2
      simp [judgePhase, hg1, hp1, hg2]

/-- Judge backend whose structured call yields `BAD`, unstructured `GOOD`. -/
def exJudgeTwo : JudgeBackend :=
  ⟨fun _ structured => if structured then .ok "BAD" else .ok "GOOD"⟩

/-- Validator accepting exactly `GOOD`. -/
def exParseGood : String → Except String JudgeEvaluation := fun s =>
  if s = "GOOD" then
    .ok { results := [], translation_language_check := none,
          response_language_check := none, language_check_passed := true }
  else .error ("cannot parse " ++ s)

theorem judge_parse_fallback_witness :
    (evaluate_with_judge fwJudge exJudgeTwo exParseGood "checklist" (-1) none
        (mkRat 9 10) none none).judgeCalls = 2 ∧
    (evaluate_with_judge fwJudge exJudgeTwo exParseGood "checklist" (-1) none
        (mkRat 9 10) none none).result =
      .ok { results := [], translation_language_check := none,
            response_language_check := none, language_check_passed := true } := by
  have h := judge_parse_fallback fwJudge exJudgeTwo exParseGood "checklist" (-1)
    (mkRat 9 10) none none exTurn "BAD" (by decide) (fun _ => rfl)
  have hB := h.2 "cannot parse BAD" rfl
  refine ⟨hB.1, ?_⟩
  exact ((hB.2.1 "GOOD" (fun _ => rfl)).1
    { results := [], translation_language_check := none,
      response_language_check := none, language_check_passed := true } rfl).1

end InterpEval
